/-
Verification of the Shadowsocks relay core (LittleChest/Shadowsocks).

This file gives a shallow embedding of the parts of the repository that the
checked properties speak about, and proves or refutes each property over that
embedding:

* `Cred` embeds `cred/manager.go`: the `ManagedServer` credential manager with
  its cached maps, its reader/writer mutex (modelled as a held/free flag — the
  model is sequential, so a lock left held by a completed call can never be
  released and a later acquisition never succeeds), the capacity-1 debounced
  save queue, and the attached TCP/UDP `CredStore` user lookup maps.
  Go maps are modelled as association lists with overwrite-on-insert.
  The external collaborators that live outside the embedded sources
  (`ss2022.PSKHash`, `ss2022.NewServerUserCipherConfig`, JSON decoding of the
  credential file) are abstracted into an `Env` of opaque functions, because
  the manager only ever calls them and compares their results.

* `Service` embeds the decision structure of `service/tcp.go`'s `handleConn`
  (the initial-payload wait window) and of `service/udp_session.go`'s receive
  loop and the two per-session workers (packet-buffer pool accounting and the
  downstream scratch-buffer sizing).
-/
import Mathlib

namespace Cred

/-- Byte strings (Go `[]byte`) modelled as lists of naturals. -/
abbrev Bytes := List Nat

/-- `cachedUserCredential` from cred/manager.go: a user's uPSK together with
its identity hash. -/
structure CachedUserCredential where
  uPSK : Bytes
  uPSKHash : Bytes
deriving DecidableEq

/-- The value stored in a `ss2022.UserLookupMap`: the per-user cipher
configuration. The manager never inspects it beyond carrying it around, so it
is modelled by the data it is constructed from (username and uPSK). -/
structure CipherConfig where
  name : String
  uPSK : Bytes
deriving DecidableEq

/-- `ss2022.UserLookupMap`: identity hash to user cipher configuration. -/
abbrev UserLookupMap := List (Bytes × CipherConfig)

/-- `cachedCredMap`: username to cached credential. -/
abbrev CredMap := List (String × CachedUserCredential)

/-- `UserCredential` from cred/manager.go (JSON shape `{username, uPSK}`). -/
structure UserCredential where
  name : String
  uPSK : Bytes
deriving DecidableEq

/-- Association-list lookup, the model of Go map indexing. -/
def lookupA {α β : Type} [DecidableEq α] : List (α × β) → α → Option β
  | [], _ => none
  | (k, v) :: rest, key => if key = k then some v else lookupA rest key

/-- Association-list insert with overwrite, the model of Go map assignment. -/
def insertA {α β : Type} [DecidableEq α] : List (α × β) → α → β → List (α × β)
  | [], key, val => [(key, val)]
  | (k, v) :: rest, key, val =>
    if key = k then (k, val) :: rest else (k, v) :: insertA rest key val

/-- Association-list key removal, the model of Go `delete`. -/
def eraseA {α β : Type} [DecidableEq α] : List (α × β) → α → List (α × β)
  | [], _ => []
  | (k, v) :: rest, key => if key = k then rest else (k, v) :: eraseA rest key

/-- Modelled from the spec: the collaborators of `ManagedServer` that live in
packages outside the embedded sources. `hash` is `ss2022.PSKHash` (a
deterministic digest of the uPSK used as the lookup key); `cipherOk` tells
whether `ss2022.NewServerUserCipherConfig(name, uPSK, enableUDP)` succeeds;
`decode` is the strict JSON decoding (unknown-field rejection included) of the
credential file into a `username → uPSK` object, `none` meaning a decode
error. The manager treats all three opaquely. -/
structure Env where
  hash : Bytes → Bytes
  cipherOk : String → Bytes → Bool → Bool
  decode : String → Option (List (String × Bytes))

/-- `ss2022.NewServerUserCipherConfig`: builds the user cipher configuration
or fails, as decided by the environment. -/
def newServerUserCipherConfig (env : Env) (name : String) (uPSK : Bytes)
    (enableUDP : Bool) : Option CipherConfig :=
  if env.cipherOk name uPSK enableUDP then some ⟨name, uPSK⟩ else none

/-- The state of a `ManagedServer` from cred/manager.go. `tcp`/`udp` hold the
user lookup maps of the attached `CredStore`s (`none` models a nil store
pointer). `muLocked` is the state of `s.mu`; since the model is sequential,
a mutex left locked by a returned call stays locked forever. `saveQueue` is
the occupancy of the capacity-1 save channel. -/
structure ManagedServer where
  pskLength : Nat
  tcp : Option UserLookupMap
  udp : Option UserLookupMap
  cachedContent : String
  cachedCredMap : CredMap
  cachedUserLookupMap : UserLookupMap
  muLocked : Bool
  saveQueue : Nat
deriving DecidableEq

/-- Outcome of invoking an operation: either it runs to completion with a
result, or it blocks forever on the held mutex. -/
inductive OpResult (α : Type) where
  | blocked
  | done (a : α)
deriving DecidableEq

/-- The errors the credential management API returns, each naming the rule
violated (and the offending username or PSK where the Go error does). -/
inductive CredError where
  | emptyUsername
  | pskLengthError (psk : Bytes) (expectedLength : Nat)
  | userExists (username : String)
  | sameUPSK (username : String)
  | nonexistentUser (username : String)
  | cipherConfigFailure (username : String)
deriving DecidableEq

/-- The errors `loadFromFile` returns. -/
inductive LoadError where
  | readFailure
  | decodeFailure
  | pskLengthError (psk : Bytes) (expectedLength : Nat)
  | duplicateUPSK (existingUser newUser : String)
  | cipherConfigFailure (username : String)
deriving DecidableEq

/-- `enqueueSave`: non-blocking send on the capacity-1 save channel. -/
def enqueueSave (s : ManagedServer) : ManagedServer :=
  if s.saveQueue < 1 then { s with saveQueue := s.saveQueue + 1 } else s

/-- `updateProdULM`: apply a mutation to the lookup maps of the attached
TCP and UDP credential stores, when present. -/
def updateProdULM (s : ManagedServer) (f : UserLookupMap → UserLookupMap) :
    ManagedServer :=
  { s with tcp := s.tcp.map f, udp := s.udp.map f }

/-- `replaceProdULM`: replace both attached stores' lookup maps with a clone
of `cachedUserLookupMap`. -/
def replaceProdULM (s : ManagedServer) : ManagedServer :=
  { s with
    tcp := s.tcp.map fun _ => s.cachedUserLookupMap
    udp := s.udp.map fun _ => s.cachedUserLookupMap }

/-- `ManagedServer.GetCredential`. Takes the read lock (blocks while the
writer lock is held), looks the username up in `cachedCredMap`. -/
def GetCredential (s : ManagedServer) (username : String) :
    OpResult (Option UserCredential) :=
  if s.muLocked then .blocked
  else
    match lookupA s.cachedCredMap username with
    | none => .done none
    | some uc => .done (some ⟨username, uc.uPSK⟩)

/-- `ManagedServer.AddCredential`. Mirrors the Go control flow: empty-name and
PSK-length checks before the lock; duplicate-username and cipher-construction
checks under the lock (both unlock before returning); on success it stores the
credential in both cached maps, unlocks, enqueues a save, and patches both
attached stores. -/
def AddCredential (env : Env) (s : ManagedServer) (username : String)
    (uPSK : Bytes) : OpResult (Option CredError × ManagedServer) :=
  if username = "" then .done (some .emptyUsername, s)
  else if uPSK.length ≠ s.pskLength then
    .done (some (.pskLengthError uPSK s.pskLength), s)
  else if s.muLocked then .blocked
  else if (lookupA s.cachedCredMap username).isSome then
    .done (some (.userExists username), s)
  else
    match newServerUserCipherConfig env username uPSK s.udp.isSome with
    | none => .done (some (.cipherConfigFailure username), s)
    | some c =>
      let uc : CachedUserCredential := ⟨uPSK, env.hash uPSK⟩
      let s1 := { s with
        cachedCredMap := insertA s.cachedCredMap username uc
        cachedUserLookupMap := insertA s.cachedUserLookupMap uc.uPSKHash c }
      let s2 := enqueueSave s1
      .done (none, updateProdULM s2 fun ulm => insertA ulm uc.uPSKHash c)

/-- `ManagedServer.UpdateCredential`. PSK-length check before the lock; under
the lock rejects a nonexistent user and a byte-identical uPSK; on success it
rewrites the cached credential in place, moves the lookup entry from the old
hash to the new, unlocks, enqueues a save, and patches both attached stores. -/
def UpdateCredential (env : Env) (s : ManagedServer) (username : String)
    (uPSK : Bytes) : OpResult (Option CredError × ManagedServer) :=
  if uPSK.length ≠ s.pskLength then
    .done (some (.pskLengthError uPSK s.pskLength), s)
  else if s.muLocked then .blocked
  else
    match lookupA s.cachedCredMap username with
    | none => .done (some (.nonexistentUser username), s)
    | some uc =>
      if uc.uPSK = uPSK then .done (some (.sameUPSK username), s)
      else
        match newServerUserCipherConfig env username uPSK s.udp.isSome with
        | none => .done (some (.cipherConfigFailure username), s)
        | some c =>
          let oldUPSKHash := uc.uPSKHash
          let newUC : CachedUserCredential := ⟨uPSK, env.hash uPSK⟩
          let s1 := { s with
            cachedCredMap := insertA s.cachedCredMap username newUC
            cachedUserLookupMap :=
              insertA (eraseA s.cachedUserLookupMap oldUPSKHash)
                newUC.uPSKHash c }
          let s2 := enqueueSave s1
          .done (none, updateProdULM s2 fun ulm =>
            insertA (eraseA ulm oldUPSKHash) newUC.uPSKHash c)

/-- `ManagedServer.DeleteCredential`. Under the lock rejects a nonexistent
user; otherwise removes the credential from both cached maps, unlocks,
enqueues a save, and patches both attached stores. -/
def DeleteCredential (s : ManagedServer) (username : String) :
    OpResult (Option CredError × ManagedServer) :=
  if s.muLocked then .blocked
  else
    match lookupA s.cachedCredMap username with
    | none => .done (some (.nonexistentUser username), s)
    | some uc =>
      let s1 := { s with
        cachedCredMap := eraseA s.cachedCredMap username
        cachedUserLookupMap := eraseA s.cachedUserLookupMap uc.uPSKHash }
      let s2 := enqueueSave s1
      .done (none, updateProdULM s2 fun ulm => eraseA ulm uc.uPSKHash)

/-- The validation loop of `loadFromFile`: for each decoded `(username, uPSK)`
pair, check the PSK length, reject a duplicate identity hash, build the cipher
configuration, and accumulate the fresh lookup and credential maps. -/
def buildMaps (env : Env) (pskLength : Nat) (enableUDP : Bool) :
    List (String × Bytes) → UserLookupMap → CredMap →
    Except LoadError (UserLookupMap × CredMap)
  | [], ulm, cm => .ok (ulm, cm)
  | (username, uPSK) :: rest, ulm, cm =>
    if uPSK.length ≠ pskLength then
      .error (.pskLengthError uPSK pskLength)
    else
      let uPSKHash := env.hash uPSK
      match lookupA ulm uPSKHash with
      | some c => .error (.duplicateUPSK c.name username)
      | none =>
        match newServerUserCipherConfig env username uPSK enableUDP with
        | none => .error (.cipherConfigFailure username)
        | some c =>
          buildMaps env pskLength enableUDP rest
            (insertA ulm uPSKHash c)
            (insertA cm username ⟨uPSK, uPSKHash⟩)

/-- `ManagedServer.loadFromFile`. `content?` is the result of
`mmap.ReadFile` (`none` = read failure, returned before the lock is taken).
The Go function then takes `s.mu.Lock()` and — faithfully to the source —
only the final success path executes `s.mu.Unlock()`: the byte-equal skip
path and every error path return with the mutex still held, which the model
records as `muLocked := true` in the returned state. -/
def loadFromFile (env : Env) (s : ManagedServer) (content? : Option String) :
    OpResult (Option LoadError × ManagedServer) :=
  match content? with
  | none => .done (some .readFailure, s)
  | some content =>
    if s.muLocked then .blocked
    else
      let sL := { s with muLocked := true }
      if content = sL.cachedContent then .done (none, sL)
      else
        match env.decode content with
        | none => .done (some .decodeFailure, sL)
        | some uPSKMap =>
          match buildMaps env sL.pskLength sL.udp.isSome uPSKMap [] [] with
          | .error e => .done (some e, sL)
          | .ok (userLookupMap, credMap) =>
            .done (none, { sL with
              cachedContent := content
              cachedUserLookupMap := userLookupMap
              cachedCredMap := credMap
              muLocked := false })

/-- `ManagedServer.LoadFromFile`: `loadFromFile`, then on a nil error replace
both attached stores' lookup maps. -/
def LoadFromFile (env : Env) (s : ManagedServer) (content? : Option String) :
    OpResult (Option LoadError × ManagedServer) :=
  match loadFromFile env s content? with
  | .blocked => .blocked
  | .done (some e, s') => .done (some e, s')
  | .done (none, s') => .done (none, replaceProdULM s')

/-- The hashes held by the credentials of a cached credential map. -/
def credHashes (cm : CredMap) : List Bytes := cm.map fun p => p.2.uPSKHash

/-- The key set of a user lookup map. -/
def ulmKeys (ulm : UserLookupMap) : List Bytes := ulm.map Prod.fst

/-- The cachedCredMap/cachedUserLookupMap consistency invariant: the set of
uPSK hashes held by cached credentials equals the key set of the lookup map
(no orphans on either side). -/
def Consistent (s : ManagedServer) : Prop :=
  ∀ h : Bytes, h ∈ credHashes s.cachedCredMap ↔ h ∈ ulmKeys s.cachedUserLookupMap

end Cred

namespace Service

/-- `initialPayloadWaitBufferSize` from service/tcp.go. -/
def initialPayloadWaitBufferSize : Nat := 1280

/-- The `payloadBufSize` computation inside `TCPRelay.handleConn`: the framed
reader's `MinPayloadBufferSizePerRead`, replaced by
`initialPayloadWaitBufferSize` only when it is zero. -/
def payloadBufSize (minPayloadBufferSizePerRead : Nat) : Nat :=
  if minPayloadBufferSizePerRead = 0 then initialPayloadWaitBufferSize
  else minPayloadBufferSizePerRead

/-- The spec's formula for the same quantity, written from the spec's words
`payloadBufSize = max(MinPayloadBufferSizePerRead, 1280)`, for comparison
with the source computation `payloadBufSize`. -/
def spec_payloadBufSize (minPayloadBufferSizePerRead : Nat) : Nat :=
  max minPayloadBufferSizePerRead 1280

/-- Outcome of the single `ReadZeroCopy` performed during the wait: a
successful read of the given payload bytes, a deadline expiry, or another
read error. -/
inductive ReadOutcome where
  | ok (bytes : Cred.Bytes)
  | deadlineExceeded
  | errOther
deriving DecidableEq

/-- The inputs that decide `TCPRelay.handleConn`'s behaviour between routing
and the outbound dial: the relay's `waitForInitialPayload` flag, the outbound
client's `NativeInitialPayload`, the payload the server framing's `Accept`
returned (`[]` for nil), the framed reader's headroom and buffer-size
contract, and the outcomes of the deadline and read calls made during the
wait. -/
structure HandleConnInput where
  waitForInitialPayload : Bool
  nativeInitialPayload : Bool
  acceptPayload : Cred.Bytes
  frontHeadroom : Nat
  rearHeadroom : Nat
  minPayloadBufferSizePerRead : Nat
  setDeadlineOk : Bool
  readOutcome : ReadOutcome
  resetDeadlineOk : Bool
deriving DecidableEq

/-- What `handleConn` does at the outbound dial point: abort the connection,
or call `c.Dial(targetAddr, payload)` with the given payload bytes. -/
inductive DialAction where
  | abort
  | dial (payload : Cred.Bytes)
deriving DecidableEq

/-- The condition guarding the initial-payload wait in `handleConn`:
`s.waitForInitialPayload && c.NativeInitialPayload()`. -/
def waitPerformed (i : HandleConnInput) : Bool :=
  i.waitForInitialPayload && i.nativeInitialPayload

/-- The size of the buffer `handleConn` allocates for the wait:
`frontHeadroom + payloadBufSize + rearHeadroom`. -/
def waitBufferLen (i : HandleConnInput) : Nat :=
  i.frontHeadroom + payloadBufSize i.minPayloadBufferSizePerRead + i.rearHeadroom

/-- The dial step of `handleConn`, from after routing to the `c.Dial` call.
When the wait guard holds, the Accept payload variable is overwritten with a
freshly allocated zero buffer of `waitBufferLen` bytes; a successful read
re-slices it to the read bytes, a deadline expiry leaves the full zero buffer
in place (the source does not re-slice on that path), and other errors abort.
When the guard does not hold, the Accept payload flows to `Dial` untouched. -/
def handleConnDial (i : HandleConnInput) : DialAction :=
  if waitPerformed i then
    if !i.setDeadlineOk then .abort
    else
      match i.readOutcome with
      | .ok bytes => if !i.resetDeadlineOk then .abort else .dial bytes
      | .deadlineExceeded =>
        if !i.resetDeadlineOk then .abort
        else .dial (List.replicate (waitBufferLen i) 0)
      | .errOther => .abort
  else .dial i.acceptPayload

/-- Outcome of the receive loop's `ReadMsgUDPAddrPort` on `serverConn`. -/
inductive RecvOutcome where
  | errClosed
  | errOther
  | ok
deriving DecidableEq

/-- Outcomes of the session-creation steps on the table-miss path of the UDP
receive loop, in source order: `NewUnpacker`, `UnpackInPlace`, `GetUDPClient`,
`NewSession`, `NewPacker`, `ListenUDP`, `SetReadDeadline`. -/
structure SessionSetupOutcome where
  newUnpackerOk : Bool
  unpackOk : Bool
  routeOk : Bool
  newSessionOk : Bool
  newPackerOk : Bool
  listenOk : Bool
  setDeadlineOk : Bool
deriving DecidableEq

/-- Result of the session-table lookup: a miss (with the creation-step
outcomes) or a hit (with the outcome of `UnpackInPlace` on the cached
unpacker). -/
inductive TableLookup where
  | miss (setup : SessionSetupOutcome)
  | hit (unpackOk : Bool)
deriving DecidableEq

/-- The inputs that decide one iteration of the UDP receive loop in
`UDPSessionRelay.Start`. `oobOk` is the outcome of `UpdateOobCache`, whose
failure only logs; `sendChHasRoom` tells whether the non-blocking send on the
session's send channel succeeds. -/
structure RecvIterInput where
  readOutcome : RecvOutcome
  flagsOk : Bool
  sessionInfoOk : Bool
  lookup : TableLookup
  oobOk : Bool
  sendChHasRoom : Bool
deriving DecidableEq

/-- Pool accounting of one receive-loop iteration: how many times the
iteration itself returns the borrowed packet buffer to the pool, and whether
it instead handed the buffer's ownership to the session's upstream worker via
the send channel. Follows the source's control flow: every failure path calls
`s.packetBufPool.Put` once and continues (or breaks, on a closed socket); an
`UpdateOobCache` failure only logs; the channel send is non-blocking, and on a
full channel the packet is dropped and the buffer returned. -/
def recvIter (i : RecvIterInput) : Nat × Bool :=
  match i.readOutcome with
  | .errClosed => (1, false)
  | .errOther => (1, false)
  | .ok =>
    if !i.flagsOk then (1, false)
    else if !i.sessionInfoOk then (1, false)
    else
      match i.lookup with
      | .hit unpackOk =>
        if !unpackOk then (1, false)
        else if i.sendChHasRoom then (0, true) else (1, false)
      | .miss st =>
        if !st.newUnpackerOk then (1, false)
        else if !st.unpackOk then (1, false)
        else if !st.routeOk then (1, false)
        else if !st.newSessionOk then (1, false)
        else if !st.newPackerOk then (1, false)
        else if !st.listenOk then (1, false)
        else if !st.setDeadlineOk then (1, false)
        else if i.sendChHasRoom then (0, true) else (1, false)

/-- The inputs that decide how the upstream worker
(`relayServerConnToNatConnGeneric`) handles one packet received from the send
channel: whether `PackInPlace` succeeds, whether the target address needs
resolving (`!useFixedTargetAddrPort` and a cache miss), whether that
resolution succeeds, and whether the socket write succeeds (a write error
only logs). -/
structure WorkerIterInput where
  packOk : Bool
  needResolve : Bool
  resolveOk : Bool
  writeOk : Bool
deriving DecidableEq

/-- Pool accounting of the upstream worker for one queued packet: the number
of times it returns the packet's buffer to the pool. Pack failure and
address-resolution failure return the buffer and continue; otherwise the
worker writes (successfully or not) and returns the buffer. -/
def workerIter (i : WorkerIterInput) : Nat :=
  if !i.packOk then 1
  else if i.needResolve && !i.resolveOk then 1
  else 1

/-- The headroom figures a UDP session's downstream worker
(`relayNatConnToServerConnGeneric`) reads from its two packers, plus the
session's `maxClientPacketSize`. Go `int` values, modelled as integers. -/
structure DownstreamInput where
  serverFrontHeadroom : Int
  serverRearHeadroom : Int
  clientFrontHeadroom : Int
  clientRearHeadroom : Int
  maxClientPacketSize : Int
deriving DecidableEq

/-- The downstream worker's `frontHeadroom`: `serverFrontHeadroom −
clientFrontHeadroom` when positive, else zero. -/
def downstreamFrontHeadroom (i : DownstreamInput) : Int :=
  if i.serverFrontHeadroom > i.clientFrontHeadroom then
    i.serverFrontHeadroom - i.clientFrontHeadroom
  else 0

/-- The downstream worker's `rearHeadroom`: `serverRearHeadroom −
clientRearHeadroom` when positive, else zero. -/
def downstreamRearHeadroom (i : DownstreamInput) : Int :=
  if i.serverRearHeadroom > i.clientRearHeadroom then
    i.serverRearHeadroom - i.clientRearHeadroom
  else 0

/-- The length of the single scratch buffer the downstream worker allocates
before entering its loop: `frontHeadroom + maxClientPacketSize +
rearHeadroom`. The loop body reads into and packs within this one buffer and
allocates no other. -/
def downstreamBufLen (i : DownstreamInput) : Int :=
  downstreamFrontHeadroom i + i.maxClientPacketSize + downstreamRearHeadroom i

end Service

open Cred Service

/-- A concrete environment: the identity digest, cipher construction that
always succeeds, and a decoder that fails on every input. -/
def envId : Cred.Env := ⟨fun k => k, fun _ _ _ => true, fun _ => none⟩

/-- A concrete environment whose decoder accepts exactly the content `"file"`,
decoding it to the single-user object `{alice ↦ [7]}`. -/
def envFile : Cred.Env :=
  ⟨fun k => k, fun _ _ _ => true,
   fun c => if c = "file" then some [("alice", [7])] else none⟩

/-- A concrete environment whose decoder accepts exactly the content `"file"`,
decoding it to `{alice ↦ [7, 7]}` — a two-byte uPSK, the wrong length for a
one-byte-PSK server. -/
def envLong : Cred.Env :=
  ⟨fun k => k, fun _ _ _ => true,
   fun c => if c = "file" then some [("alice", [7, 7])] else none⟩

/-- A freshly registered one-byte-PSK server with empty caches, both credential
stores attached, the mutex free and the save queue empty. -/
def sEmpty : Cred.ManagedServer :=
  { pskLength := 1, tcp := some [], udp := some [], cachedContent := ""
    cachedCredMap := [], cachedUserLookupMap := [], muLocked := false
    saveQueue := 0 }

/-- The state of `sEmpty` after `AddCredential("alice", [7])` succeeds. -/
def sAlice : Cred.ManagedServer :=
  { pskLength := 1
    tcp := some [([7], ⟨"alice", [7]⟩)]
    udp := some [([7], ⟨"alice", [7]⟩)]
    cachedContent := ""
    cachedCredMap := [("alice", ⟨[7], [7]⟩)]
    cachedUserLookupMap := [([7], ⟨"alice", [7]⟩)]
    muLocked := false
    saveQueue := 1 }

/-- The state of `sAlice` after `AddCredential("bob", [7])` succeeds with the
same uPSK: both cached credentials carry the hash `[7]`, but the lookup maps
hold a single entry for it (bob's cipher configuration overwrote alice's). -/
def sAliceBob : Cred.ManagedServer :=
  { pskLength := 1
    tcp := some [([7], ⟨"bob", [7]⟩)]
    udp := some [([7], ⟨"bob", [7]⟩)]
    cachedContent := ""
    cachedCredMap := [("alice", ⟨[7], [7]⟩), ("bob", ⟨[7], [7]⟩)]
    cachedUserLookupMap := [([7], ⟨"bob", [7]⟩)]
    muLocked := false
    saveQueue := 1 }

/-- The state of `sAliceBob` after `DeleteCredential("alice")`: bob's
credential survives in `cachedCredMap`, but its hash `[7]` is gone from every
lookup map. -/
def sBobOrphan : Cred.ManagedServer :=
  { pskLength := 1
    tcp := some []
    udp := some []
    cachedContent := ""
    cachedCredMap := [("bob", ⟨[7], [7]⟩)]
    cachedUserLookupMap := []
    muLocked := false
    saveQueue := 1 }

/-- The state of `sEmpty` after one successful `LoadFromFile` of the content
`"file"` under `envFile`. -/
def sLoaded : Cred.ManagedServer :=
  { pskLength := 1
    tcp := some [([7], ⟨"alice", [7]⟩)]
    udp := some [([7], ⟨"alice", [7]⟩)]
    cachedContent := "file"
    cachedCredMap := [("alice", ⟨[7], [7]⟩)]
    cachedUserLookupMap := [([7], ⟨"alice", [7]⟩)]
    muLocked := false
    saveQueue := 0 }

/-- A `handleConn` input on which the wait guard holds although `Accept`
already surfaced the payload `[1, 2, 3]`; the wait's read returns `[9]`. -/
def c1Input : Service.HandleConnInput :=
  { waitForInitialPayload := true, nativeInitialPayload := true
    acceptPayload := [1, 2, 3], frontHeadroom := 0, rearHeadroom := 0
    minPayloadBufferSizePerRead := 4, setDeadlineOk := true
    readOutcome := .ok [9], resetDeadlineOk := true }

/-- A `handleConn` input on which the wait guard does not hold and `Accept`
surfaced the payload `[5]`. -/
def c1NoWaitInput : Service.HandleConnInput :=
  { waitForInitialPayload := false, nativeInitialPayload := true
    acceptPayload := [5], frontHeadroom := 0, rearHeadroom := 0
    minPayloadBufferSizePerRead := 4, setDeadlineOk := true
    readOutcome := .ok [9], resetDeadlineOk := true }

/-- A `handleConn` input whose framed reader reports
`MinPayloadBufferSizePerRead = 0`, with front headroom 1 and rear headroom 2. -/
def c3ZeroInput : Service.HandleConnInput :=
  { waitForInitialPayload := true, nativeInitialPayload := true
    acceptPayload := [], frontHeadroom := 1, rearHeadroom := 2
    minPayloadBufferSizePerRead := 0, setDeadlineOk := true
    readOutcome := .ok [9], resetDeadlineOk := true }

theorem lookupA_insertA_self {α β : Type} [DecidableEq α]
    (l : List (α × β)) (k : α) (v : β) :
    Cred.lookupA (Cred.insertA l k v) k = some v := by
  induction l with
  | nil => simp [Cred.insertA, Cred.lookupA]
  | cons p rest ih =>
    rcases p with ⟨k', v'⟩
    by_cases h : k = k' <;> simp [Cred.insertA, Cred.lookupA, h, ih]

theorem enqueueSave_cachedCredMap (s : Cred.ManagedServer) :
    (Cred.enqueueSave s).cachedCredMap = s.cachedCredMap := by
  unfold Cred.enqueueSave; split <;> rfl

theorem enqueueSave_muLocked (s : Cred.ManagedServer) :
    (Cred.enqueueSave s).muLocked = s.muLocked := by
  unfold Cred.enqueueSave; split <;> rfl

theorem updateProdULM_cachedCredMap (s : Cred.ManagedServer)
    (f : Cred.UserLookupMap → Cred.UserLookupMap) :
    (Cred.updateProdULM s f).cachedCredMap = s.cachedCredMap := rfl

theorem updateProdULM_muLocked (s : Cred.ManagedServer)
    (f : Cred.UserLookupMap → Cred.UserLookupMap) :
    (Cred.updateProdULM s f).muLocked = s.muLocked := rfl

/-- C9: the downstream worker's single scratch buffer has length
`frontHeadroom + maxClientPacketSize + rearHeadroom`, where the front and rear
headrooms are exactly the positive differences between the server-side
packer's and the outbound packer's headroom requirements. -/
theorem udp_downstream_buffer_size (i : Service.DownstreamInput) :
    Service.downstreamBufLen i =
      max (i.serverFrontHeadroom - i.clientFrontHeadroom) 0 +
        i.maxClientPacketSize +
        max (i.serverRearHeadroom - i.clientRearHeadroom) 0 := by
  unfold Service.downstreamBufLen Service.downstreamFrontHeadroom
    Service.downstreamRearHeadroom
  split <;> split <;> omega

/-- C5: one receive-loop iteration together with the upstream worker's
handling of the forwarded packet returns the borrowed pool buffer exactly
once: every receive-loop failure path (read error, flag error, session-info
failure, each session-creation failure, unpack failure, full send channel)
returns it directly without blocking, and when the non-blocking channel send
succeeds the worker returns it exactly once — alike on pack failure,
address-resolution failure, write failure, and successful write. -/
theorem udp_packet_buffer_single_return (i : Service.RecvIterInput)
    (w : Service.WorkerIterInput) :
    (Service.recvIter i).1 +
      (if (Service.recvIter i).2 = true then Service.workerIter w else 0) = 1 := by
  have hw : Service.workerIter w = 1 := by
    unfold Service.workerIter
    repeat' split
    all_goals rfl
  have h : Service.recvIter i = (1, false) ∨ Service.recvIter i = (0, true) := by
    unfold Service.recvIter
    repeat' split
    all_goals simp
  rcases h with h | h <;> rw [h] <;> simp [hw]

/-- C1 counterexample: on `c1Input` the initial-payload wait is performed even
though the server framing's `Accept` surfaced the non-empty payload
`[1, 2, 3]` — the guard in the source checks only the configuration flag and
the client's `NativeInitialPayload` — and the outbound dial receives the bytes
read during the wait, not the `Accept` payload. -/
theorem tcp_wait_ignores_accept_payload :
    Service.waitPerformed c1Input = true ∧
      c1Input.acceptPayload = [1, 2, 3] ∧
      Service.handleConnDial c1Input = .dial [9] ∧
      Service.handleConnDial c1Input ≠ .dial c1Input.acceptPayload := by
  decide

/-- C1 (amended): the 250 ms initial-payload wait is performed exactly when
waiting is enabled by configuration and the outbound client advertises
`NativeInitialPayload`; whether `Accept` surfaced initial payload bytes is not
consulted. When the wait is not performed, the `Accept` payload is passed
unchanged to the outbound `Dial` call; when it is performed and the read
succeeds, the bytes read during the wait are dialed instead. -/
theorem tcp_wait_guard_amended (i : Service.HandleConnInput) :
    (Service.waitPerformed i = true ↔
      i.waitForInitialPayload = true ∧ i.nativeInitialPayload = true) ∧
    (Service.waitPerformed i = false →
      Service.handleConnDial i = .dial i.acceptPayload) ∧
    (∀ bytes, Service.waitPerformed i = true → i.setDeadlineOk = true →
      i.resetDeadlineOk = true → i.readOutcome = .ok bytes →
      Service.handleConnDial i = .dial bytes) := by
  refine ⟨?_, ?_, ?_⟩
  · unfold Service.waitPerformed
    simp
  · intro h
    unfold Service.handleConnDial
    simp [h]
  · intro bytes hw hsd hrd hro
    unfold Service.handleConnDial
    simp [hw, hsd, hrd, hro]

/-- Witness for the amended C1 theorem at the concrete inputs `c1NoWaitInput`
(guard off: the Accept payload `[5]` rides in the dial) and `c1Input`
(guard on, successful read of `[9]`). -/
theorem tcp_wait_guard_amended_witness :
    Service.handleConnDial c1NoWaitInput = .dial [5] ∧
      Service.handleConnDial c1Input = .dial [9] :=
  ⟨(tcp_wait_guard_amended c1NoWaitInput).2.1 (by decide),
   (tcp_wait_guard_amended c1Input).2.2 [9] (by decide) (by decide) (by decide)
     (by decide)⟩

/-- C3 counterexample: for a framed reader with
`MinPayloadBufferSizePerRead = 1` (positive and smaller than 1280), the source
computes `payloadBufSize = 1`, not the spec's `max(1, 1280) = 1280` — the
source substitutes 1280 only when the reported minimum is zero. -/
theorem tcp_payload_buf_size_not_max :
    Service.payloadBufSize 1 = 1 ∧
      Service.spec_payloadBufSize 1 = 1280 ∧
      Service.payloadBufSize 1 ≠ Service.spec_payloadBufSize 1 := by
  decide

/-- C3 (amended): the wait buffer has size
`frontHeadroom + payloadBufSize + rearHeadroom` where `payloadBufSize` equals
`MinPayloadBufferSizePerRead` whenever that value is nonzero and 1280 when it
is zero; the source's `payloadBufSize` agrees with the spec's
`max(MinPayloadBufferSizePerRead, 1280)` exactly when the reported minimum is
zero or at least 1280. -/
theorem tcp_payload_buf_size_amended (i : Service.HandleConnInput) :
    (i.minPayloadBufferSizePerRead ≠ 0 →
      Service.waitBufferLen i =
        i.frontHeadroom + i.minPayloadBufferSizePerRead + i.rearHeadroom) ∧
    (i.minPayloadBufferSizePerRead = 0 →
      Service.waitBufferLen i = i.frontHeadroom + 1280 + i.rearHeadroom) ∧
    (Service.payloadBufSize i.minPayloadBufferSizePerRead =
        Service.spec_payloadBufSize i.minPayloadBufferSizePerRead ↔
      i.minPayloadBufferSizePerRead = 0 ∨
        1280 ≤ i.minPayloadBufferSizePerRead) := by
  unfold Service.waitBufferLen Service.payloadBufSize
    Service.spec_payloadBufSize Service.initialPayloadWaitBufferSize
  refine ⟨fun h => by simp [h], fun h => by simp [h], ?_⟩
  split <;> omega

/-- Witness for the amended C3 theorem: `c1Input` reports a nonzero minimum
of 4 (buffer 0 + 4 + 0), `c3ZeroInput` reports zero (buffer 1 + 1280 + 2). -/
theorem tcp_payload_buf_size_amended_witness :
    Service.waitBufferLen c1Input = 4 ∧
      Service.waitBufferLen c3ZeroInput = 1283 :=
  ⟨(tcp_payload_buf_size_amended c1Input).1 (by decide),
   (tcp_payload_buf_size_amended c3ZeroInput).2.1 (by decide)⟩

/-- C7: when `AddCredential`, `UpdateCredential`, or `DeleteCredential`
rejects an empty username (add), a uPSK of the wrong length (add/update), or a
nonexistent username (update/delete), the returned error names the rule
violated (and the offending data), and the entire server state — the cached
maps, both attached stores' lookup maps, and the save queue — is returned
exactly as it was, so no save is enqueued. -/
theorem cred_api_violation_no_mutation (env : Cred.Env)
    (s : Cred.ManagedServer) (u : String) (k : Cred.Bytes)
    (hmu : s.muLocked = false) :
    (u = "" →
      Cred.AddCredential env s u k = .done (some .emptyUsername, s)) ∧
    (u ≠ "" → k.length ≠ s.pskLength →
      Cred.AddCredential env s u k =
        .done (some (.pskLengthError k s.pskLength), s)) ∧
    (k.length ≠ s.pskLength →
      Cred.UpdateCredential env s u k =
        .done (some (.pskLengthError k s.pskLength), s)) ∧
    (k.length = s.pskLength → Cred.lookupA s.cachedCredMap u = none →
      Cred.UpdateCredential env s u k =
        .done (some (.nonexistentUser u), s)) ∧
    (Cred.lookupA s.cachedCredMap u = none →
      Cred.DeleteCredential s u = .done (some (.nonexistentUser u), s)) := by
  refine ⟨fun h => ?_, fun h1 h2 => ?_, fun h => ?_, fun h1 h2 => ?_,
    fun h => ?_⟩
  · simp [Cred.AddCredential, h]
  · simp [Cred.AddCredential, h1, h2]
  · simp [Cred.UpdateCredential, h]
  · simp [Cred.UpdateCredential, h1, hmu, h2]
  · simp [Cred.DeleteCredential, hmu, h]

/-- Witness for C7 at concrete inputs: an empty username on add, a two-byte
uPSK on a one-byte-PSK server for add and update, and the unknown username
`"ghost"` for update and delete, all against the freshly registered server. -/
theorem cred_api_violation_no_mutation_witness :
    Cred.AddCredential envId sEmpty "" [9] =
      .done (some .emptyUsername, sEmpty) ∧
    Cred.AddCredential envId sEmpty "x" [9, 9] =
      .done (some (.pskLengthError [9, 9] 1), sEmpty) ∧
    Cred.UpdateCredential envId sEmpty "x" [9, 9] =
      .done (some (.pskLengthError [9, 9] 1), sEmpty) ∧
    Cred.UpdateCredential envId sEmpty "ghost" [9] =
      .done (some (.nonexistentUser "ghost"), sEmpty) ∧
    Cred.DeleteCredential sEmpty "ghost" =
      .done (some (.nonexistentUser "ghost"), sEmpty) :=
  ⟨(cred_api_violation_no_mutation envId sEmpty "" [9] (by decide)).1 rfl,
   (cred_api_violation_no_mutation envId sEmpty "x" [9, 9] (by decide)).2.1
     (by decide) (by decide),
   (cred_api_violation_no_mutation envId sEmpty "x" [9, 9] (by decide)).2.2.1
     (by decide),
   (cred_api_violation_no_mutation envId sEmpty "ghost" [9]
     (by decide)).2.2.2.1 (by decide) (by decide),
   (cred_api_violation_no_mutation envId sEmpty "ghost" [9]
     (by decide)).2.2.2.2 (by decide)⟩

/-- C10: `UpdateCredential` on an existing user with a uPSK byte-equal to the
current one is rejected with an error naming the user (`user u already has the
same uPSK`) rather than succeeding as a no-op, and the server state — cached
maps, both attached stores, save queue — is returned exactly as it was. -/
theorem update_same_upsk_rejected (env : Cred.Env) (s : Cred.ManagedServer)
    (u : String) (k : Cred.Bytes) (uc : Cred.CachedUserCredential)
    (hmu : s.muLocked = false) (hlen : k.length = s.pskLength)
    (hlk : Cred.lookupA s.cachedCredMap u = some uc) (hups : uc.uPSK = k) :
    Cred.UpdateCredential env s u k = .done (some (.sameUPSK u), s) := by
  simp [Cred.UpdateCredential, hmu, hlen, hlk, hups]

/-- Witness for C10: re-submitting alice's current uPSK `[7]` is rejected and
leaves the state `sAlice` untouched. -/
theorem update_same_upsk_rejected_witness :
    Cred.UpdateCredential envId sAlice "alice" [7] =
      .done (some (.sameUPSK "alice"), sAlice) :=
  update_same_upsk_rejected envId sAlice "alice" [7] ⟨[7], [7]⟩ (by decide)
    (by decide) (by decide) (by decide)

/-- C8: whenever `AddCredential(u, k)` completes without error, an immediately
following `GetCredential(u)` completes and returns the credential
`{Name: u, UPSK: k}` with the found flag set. -/
theorem add_then_get (env : Cred.Env) (s : Cred.ManagedServer) (u : String)
    (k : Cred.Bytes) (s' : Cred.ManagedServer)
    (h : Cred.AddCredential env s u k = .done (none, s')) :
    Cred.GetCredential s' u = .done (some ⟨u, k⟩) := by
  unfold Cred.AddCredential at h
  by_cases h1 : u = ""
  · rw [if_pos h1] at h; simp at h
  rw [if_neg h1] at h
  by_cases h2 : k.length ≠ s.pskLength
  · rw [if_pos h2] at h; simp at h
  rw [if_neg h2] at h
  by_cases h3 : s.muLocked
  · rw [if_pos h3] at h; simp at h
  rw [if_neg h3] at h
  by_cases h4 : (Cred.lookupA s.cachedCredMap u).isSome
  · rw [if_pos h4] at h; simp at h
  rw [if_neg h4] at h
  rcases hc : Cred.newServerUserCipherConfig env u k s.udp.isSome with _ | c
  · rw [hc] at h; simp at h
  · rw [hc] at h
    simp only [Cred.OpResult.done.injEq, Prod.mk.injEq, true_and] at h
    subst h
    simp [Cred.GetCredential, Cred.updateProdULM, enqueueSave_muLocked,
      enqueueSave_cachedCredMap, h3, lookupA_insertA_self]

/-- Witness for C8: adding alice's credential `[7]` to the fresh server yields
`sAlice`, on which `GetCredential` returns `(alice, [7], true)`. -/
theorem add_then_get_witness :
    Cred.GetCredential sAlice "alice" = .done (some ⟨"alice", [7]⟩) :=
  add_then_get envId sEmpty "alice" [7] sAlice (by decide)

/-- C2 (code bug): `loadFromFile` returns on its post-lock error paths without
executing `s.mu.Unlock()` (only the final success path unlocks). On a decode
failure, and likewise on a PSK-length failure, `LoadFromFile` does leave every
cached map and both attached stores untouched, but it returns with the writer
mutex still held, after which `GetCredential`, a retried `LoadFromFile`, and
`AddCredential` all block forever instead of completing. -/
theorem load_error_leaves_mutex_held :
    Cred.LoadFromFile envId sAlice (some "garbage") =
      .done (some .decodeFailure, { sAlice with muLocked := true }) ∧
    Cred.LoadFromFile envLong sAlice (some "file") =
      .done (some (.pskLengthError [7, 7] 1), { sAlice with muLocked := true }) ∧
    Cred.GetCredential { sAlice with muLocked := true } "alice" = .blocked ∧
    Cred.LoadFromFile envId { sAlice with muLocked := true } (some "garbage") =
      .blocked ∧
    Cred.AddCredential envId { sAlice with muLocked := true } "bob" [8] =
      .blocked := by
  decide

/-- C4 (code bug): a byte-identical reload does return without error and
leaves the cached maps unchanged, but the short-circuit path
`if content == s.cachedContent { return nil }` returns without executing
`s.mu.Unlock()`, so the resulting state differs from the pre-call state in the
held mutex, and further operations block forever instead of behaving
identically. -/
theorem reload_skip_leaves_mutex_held :
    Cred.LoadFromFile envFile sEmpty (some "file") = .done (none, sLoaded) ∧
    Cred.LoadFromFile envFile sLoaded (some "file") =
      .done (none, { sLoaded with muLocked := true }) ∧
    { sLoaded with muLocked := true } ≠ sLoaded ∧
    Cred.GetCredential { sLoaded with muLocked := true } "alice" = .blocked ∧
    Cred.LoadFromFile envFile { sLoaded with muLocked := true } (some "file") =
      .blocked := by
  decide

/-- C6 (code bug): `AddCredential` never checks whether the new credential's
identity hash already belongs to another user, so adding bob with alice's
uPSK succeeds and silently rebinds the shared hash, and the later
`DeleteCredential("alice")` removes that hash from `cachedUserLookupMap`
while bob's credential stays in `cachedCredMap` — an orphan that violates the
cachedCredMap/cachedUserLookupMap consistency invariant. -/
theorem duplicate_upsk_breaks_map_consistency :
    Cred.AddCredential envId sEmpty "alice" [7] = .done (none, sAlice) ∧
    Cred.AddCredential envId sAlice "bob" [7] = .done (none, sAliceBob) ∧
    Cred.DeleteCredential sAliceBob "alice" = .done (none, sBobOrphan) ∧
    Cred.lookupA sBobOrphan.cachedCredMap "bob" = some ⟨[7], [7]⟩ ∧
    Cred.lookupA sBobOrphan.cachedUserLookupMap [7] = none ∧
    ¬ Cred.Consistent sBobOrphan := by
  refine ⟨by decide, by decide, by decide, by decide, by decide, fun hc => ?_⟩
  have h7 : [7] ∈ Cred.credHashes sBobOrphan.cachedCredMap := by decide
  have h := (hc [7]).mp h7
  revert h
  decide
